import Mathlib

/-!
Verification of the microbox container runtime against its specification.

The C sources (`sandbox.c`, `seccomp.c`, `fs.c`, `parse.c`, `netns.c`,
`netlink.c`, `utils.c`) are shallowly embedded below.  Pure computations
(syscall-list merging, memory-size parsing, string formatting) become Lean
functions; effectful code becomes explicit traces of abstract actions, with
the outcomes of the underlying system calls supplied as oracle parameters.
Machine integers are modelled as `Nat`/`Int` with explicit bounds where the C
code checks them; the `double cpus` field is modelled as an exact `Rat`.
-/

namespace Microbox

/-- The fs_mode_t enumeration from sandbox.h: FS_TMPFS, FS_HOST, FS_ROOTFS. -/
inductive FsMode where
  | tmpfs
  | host
  | rootfs
deriving DecidableEq, Repr

/-- The net_mode_t enumeration (net.h): NET_NONE, NET_HOST, NET_PRIVATE,
NET_BRIDGE.  (`priv` stands for NET_PRIVATE; `private` is a Lean keyword.) -/
inductive NetMode where
  | none
  | host
  | priv
  | bridge
deriving DecidableEq, Repr

/-- The mnt_mode_t enumeration from sandbox.h: MNT_RO, MNT_RW. -/
inductive MntMode where
  | ro
  | rw
deriving DecidableEq, Repr

/-- mount_spec_t from sandbox.h: one bind-mount specification. -/
structure MountSpec where
  host : String
  dest : String
  mode : MntMode
deriving DecidableEq, Repr

/-- sandbox_options_t from sandbox.h.  The `env` field and the redundant
length fields (`mounts_len`, `env_len`, `syscalls_*_len`) are represented by
the Lean lists themselves; `hostname` is `Option` because the C field is a
possibly-NULL pointer. -/
structure SandboxOptions where
  fs_mode : FsMode
  net_mode : NetMode
  rootfs : String
  hostname : Option String
  cpus : Rat
  memory : Nat
  mounts : List MountSpec
  mount_proc : Bool
  mount_dev : Bool
  syscalls_allow : List String
  syscalls_deny : List String
  cmd : List String

/-- sandbox_process_t from sandbox.h. -/
structure SandboxProcess where
  pidfd : Int
  pid : Nat

/-- The docker_default_denylist array from seccomp.c, in source order. -/
def docker_default_denylist : List String :=
  [ "create_module", "init_module", "finit_module", "delete_module",
    "kexec_load", "kexec_file_load",
    "add_key", "request_key", "keyctl",
    "bpf",
    "ptrace", "process_vm_readv", "process_vm_writev",
    "adjtimex", "clock_adjtime", "settimeofday", "stime",
    "reboot", "quotactl", "nfsservctl", "sysfs", "_sysctl",
    "personality",
    "mount", "umount", "umount2", "pivot_root",
    "setns", "unshare",
    "open_by_handle_at",
    "perf_event_open", "fanotify_init",
    "name_to_handle_at", "lookup_dcookie",
    "userfaultfd", "vm86", "vm86old", "iopl", "ioperm",
    "set_mempolicy", "move_pages",
    "kcmp",
    "acct", "clone3" ]

/-- merge_syscall_lists from sandbox.c (lines 319-357): when no user deny or
allow syscalls are given, the final denylist is the default denylist and the
allowlist is NULL (here `[]`); otherwise the final denylist is the default
denylist followed by the user deny entries, and the user allow list is used
as the override allowlist. -/
def merge_syscall_lists (opts : SandboxOptions) : List String × List String :=
  if opts.syscalls_deny = [] ∧ opts.syscalls_allow = [] then
    (docker_default_denylist, [])
  else
    (docker_default_denylist ++ opts.syscalls_deny, opts.syscalls_allow)

/-- The rule-installation loop of microbox_setup_seccomp (seccomp.c lines
100-122): the filter context starts with default action ALLOW, and for each
denylist entry the loop skips NULL/empty names, skips names found in the
allow-override list (name_in_list), skips names that
seccomp_syscall_resolve_name cannot resolve on this architecture, and adds an
ENOSYS rule for the rest.  `resolves` is the oracle for
seccomp_syscall_resolve_name succeeding.  The result is the list of syscall
names that receive a SCMP_ACT_ERRNO(ENOSYS) rule, in loop order. -/
def microbox_setup_seccomp_rules
    (deny allow : List String) (resolves : String → Bool) : List String :=
  deny.filter (fun name => decide (name ≠ "" ∧ name ∉ allow ∧ resolves name = true))

/-- The si_code values waitid can report (CLD_EXITED, CLD_KILLED, CLD_DUMPED,
CLD_STOPPED, CLD_TRAPPED, CLD_CONTINUED). -/
inductive SiCode where
  | exited
  | killed
  | dumped
  | stopped
  | trapped
  | continued
deriving DecidableEq, Repr

/-- The fields of siginfo_t that microbox_sandbox_wait inspects. -/
structure SigInfo where
  code : SiCode
  status : Int
deriving DecidableEq, Repr

/-- microbox_sandbox_wait from sandbox.c (lines 535-561), as a function of the
outcome of `waitid(P_PIDFD, proc->pidfd, &si, WEXITED)`: a NULL proc yields
-EINVAL (EINVAL = 22); a failing waitid yields the negated errno; CLD_EXITED
yields si_status; CLD_KILLED and CLD_DUMPED yield 128 + si_status; anything
else falls through to 0.  (The network-interface cleanup performed between
waitid and the return only prints a warning and never changes the return
value; it is modelled by `microbox_sandbox_wait_acts` below.) -/
def microbox_sandbox_wait
    (proc : Option SandboxProcess) (waitidResult : Except Nat SigInfo) : Int :=
  match proc with
  | Option.none => -22
  | Option.some _ =>
    match waitidResult with
    | Except.error e => -(e : Int)
    | Except.ok si =>
      match si.code with
      | SiCode.exited => si.status
      | SiCode.killed => 128 + si.status
      | SiCode.dumped => 128 + si.status
      | _ => 0

/-- netns_config_t from netns.h (the interface-name fields; the IP fields are
not needed by any claim). -/
structure NetnsConfig where
  bridge_name : String
  veth_host : String
  veth_container : String
deriving DecidableEq, Repr

/-- generate_interface_names from netns.c (lines 20-34): the interface id is
`container_id % 254`, the bridge is always "microbox0", and the veth pair is
named `mbx<id>h` / `mbx<id>c`.  The function cannot fail. -/
def generate_interface_names (container_id : Nat) : NetnsConfig :=
  ⟨"microbox0",
   "mbx" ++ toString (container_id % 254) ++ "h",
   "mbx" ++ toString (container_id % 254) ++ "c"⟩

/-- netlink_delete_interface from netlink.c (lines 456-505): when
netlink_get_interface_index fails (the interface name has no index, i.e. the
interface does not exist) the function returns 0, treating the deletion as a
success; otherwise it issues RTM_DELLINK and returns the outcome of the
request/ack exchange (0 on success, -1 on any send/recv/ack error), which is
abstracted here as the `deleteResult` oracle. -/
def netlink_delete_interface
    (ifindexOf : String → Option Nat) (deleteResult : Nat → Int)
    (name : String) : Int :=
  match ifindexOf name with
  | Option.none => 0
  | Option.some idx => deleteResult idx

/-- microbox_cleanup_network_interfaces from netns.c (lines 276-302):
regenerate the interface names from the container id, open a netlink socket
(`openOk` oracle), delete the host-side veth interface, and return 0 unless
the socket could not be opened or the deletion reported failure. -/
def microbox_cleanup_network_interfaces
    (openOk : Bool) (ifindexOf : String → Option Nat)
    (deleteResult : Nat → Int) (container_id : Nat) : Int :=
  let config := generate_interface_names container_id
  if openOk = false then -1
  else if netlink_delete_interface ifindexOf deleteResult config.veth_host ≠ 0 then -1
  else 0

/-- The observable steps of microbox_sandbox_wait, for the cleanup claim. -/
inductive WaitAct where
  | waitidCall
  | cleanupInterfaces (vethHostName : String)
  | returnCode (code : Int)
deriving DecidableEq, Repr

/-- The action sequence of microbox_sandbox_wait (sandbox.c lines 535-561).
Note that the function receives only the sandbox_process_t: the sandbox
options (and in particular the network mode) are not available to it, so the
cleanup step is performed for every network mode.  The cleanup uses the child
pid recorded by spawn (`process->pid = pid`). -/
def microbox_sandbox_wait_acts
    (proc : Option SandboxProcess) (waitidResult : Except Nat SigInfo) :
    List WaitAct :=
  match proc with
  | Option.none => [WaitAct.returnCode (-22)]
  | Option.some p =>
    WaitAct.waitidCall ::
    match waitidResult with
    | Except.error e => [WaitAct.returnCode (-(e : Int))]
    | Except.ok si =>
      [WaitAct.cleanupInterfaces (generate_interface_names p.pid).veth_host,
       WaitAct.returnCode (microbox_sandbox_wait (Option.some p) (Except.ok si))]

/-- The cgroup-v2 pseudo-files that setup_cgroup_limits (sandbox.c lines
61-144) writes to.  `subtreeControl` is `/sys/fs/cgroup/cgroup.subtree_control`;
the other four live under the per-container directory
`/sys/fs/cgroup/microbox-<pid>/`. -/
inductive CgFile where
  | subtreeControl
  | cpuMax
  | memoryMax
  | memorySwapMax
  | cgroupProcs
deriving DecidableEq, Repr

/-- The pathname of each cgroup pseudo-file, as built by the snprintf calls in
setup_cgroup_limits. -/
def cg_file_path (pid : Nat) : CgFile → String
  | CgFile.subtreeControl => "/sys/fs/cgroup/cgroup.subtree_control"
  | CgFile.cpuMax => "/sys/fs/cgroup/microbox-" ++ toString pid ++ "/cpu.max"
  | CgFile.memoryMax => "/sys/fs/cgroup/microbox-" ++ toString pid ++ "/memory.max"
  | CgFile.memorySwapMax =>
      "/sys/fs/cgroup/microbox-" ++ toString pid ++ "/memory.swap.max"
  | CgFile.cgroupProcs => "/sys/fs/cgroup/microbox-" ++ toString pid ++ "/cgroup.procs"

/-- The cpu.max payload built by setup_cgroup_limits when cpus > 0:
`snprintf(buf, ..., "%u %u", quota, period)` with period = 100000 and
quota = `(unsigned int)(cpus * period)`.  The C cast of a positive double to
unsigned int truncates toward zero, i.e. takes the floor; `cpus` is modelled
as an exact rational. -/
def cpu_max_content (cpus : Rat) : String :=
  toString ((cpus * 100000).floor.toNat) ++ " 100000"

/-- The sequence of (file, payload) writes performed by setup_cgroup_limits
(sandbox.c lines 61-144) on its success path: "+memory" and "+cpu" into
cgroup.subtree_control when that file could be opened (`subtreeOpenOk`; EBUSY
on these writes is tolerated), then `"<quota> 100000"` into cpu.max only when
`cpus > 0.0`, then the decimal byte count into memory.max and "0" into
memory.swap.max only when `memory > 0`, then the pid into cgroup.procs. -/
def setup_cgroup_limits_writes
    (pid : Nat) (cpus : Rat) (memory : Nat) (subtreeOpenOk : Bool) :
    List (CgFile × String) :=
  (if subtreeOpenOk then
    [(CgFile.subtreeControl, "+memory"), (CgFile.subtreeControl, "+cpu")]
   else [])
  ++ (if 0 < cpus then [(CgFile.cpuMax, cpu_max_content cpus)] else [])
  ++ (if 0 < memory then
        [(CgFile.memoryMax, toString memory), (CgFile.memorySwapMax, "0")]
      else [])
  ++ [(CgFile.cgroupProcs, toString pid)]

/-- The three mapping steps of setup_uid_gid_map (sandbox.c lines 19-56). -/
inductive MapStep where
  | setgroupsStep
  | uidMapStep
  | gidMapStep
deriving DecidableEq, Repr

/-- The `/proc/<pid>/setgroups` path built by `snprintf(path, ..., "/proc/%d/setgroups", pid)`. -/
def setgroups_path (pid : Nat) : String :=
  "/proc/" ++ toString pid ++ "/setgroups"

/-- The `/proc/<pid>/uid_map` path. -/
def uid_map_path (pid : Nat) : String :=
  "/proc/" ++ toString pid ++ "/uid_map"

/-- The `/proc/<pid>/gid_map` path. -/
def gid_map_path (pid : Nat) : String :=
  "/proc/" ++ toString pid ++ "/gid_map"

/-- The uid-map payload `snprintf(buf, ..., "0 %d 1\n", getuid())`: note the
trailing newline emitted by the format string. -/
def uid_map_content (uid : Nat) : String :=
  "0 " ++ toString uid ++ " 1\n"

/-- The gid-map payload `snprintf(buf, ..., "0 %d 1\n", getgid())`: note the
trailing newline emitted by the format string. -/
def gid_map_content (gid : Nat) : String :=
  "0 " ++ toString gid ++ " 1\n"

/-- setup_uid_gid_map from sandbox.c (lines 19-56).  Each of the three files
receives exactly one `write` call of the whole payload string; a write that
fails or writes fewer bytes than the payload (`write(...) != strlen(...)`,
checked via write_file for setgroups and directly for the two maps) aborts
with -1, and open failures behave the same way.  The `ok` oracle says whether
the single write for a step transferred the whole string.  The result is the
return value paired with the (path, payload) writes attempted, in order. -/
def setup_uid_gid_map (pid uid gid : Nat) (ok : MapStep → Bool) :
    Int × List (String × String) :=
  let w1 : String × String := (setgroups_path pid, "deny")
  if ok MapStep.setgroupsStep = false then (-1, [w1])
  else
    let w2 : String × String := (uid_map_path pid, uid_map_content uid)
    if ok MapStep.uidMapStep = false then (-1, [w1, w2])
    else
      let w3 : String × String := (gid_map_path pid, gid_map_content gid)
      if ok MapStep.gidMapStep = false then (-1, [w1, w2, w3])
      else (0, [w1, w2, w3])

/-- The parent-side steps of microbox_sandbox_spawn after a successful clone3
(sandbox.c lines 484-527), at the granularity the identity-mapping claim
needs. -/
inductive ParentOp where
  | fileWrite (path content : String)
  | netSetupOp
  | moveVethOp
  | cgroupOp
  | barrierWriteByte
deriving DecidableEq, Repr

/-- The parent branch of microbox_sandbox_spawn on its success path
(sandbox.c lines 484-527): the three identity-map writes performed by
setup_uid_gid_map, then (in bridge mode only) host-side bridge/veth setup and
the move of the container veth, then setup_cgroup_limits, and finally
SIGNAL_CHILD, which writes the single barrier byte. -/
def spawn_parent_ops (opts : SandboxOptions) (pid uid gid : Nat) :
    List ParentOp :=
  ((setup_uid_gid_map pid uid gid (fun _ => true)).2.map
      (fun w => ParentOp.fileWrite w.1 w.2))
  ++ (if opts.net_mode = NetMode.bridge then
        [ParentOp.netSetupOp, ParentOp.moveVethOp]
      else [])
  ++ [ParentOp.cgroupOp, ParentOp.barrierWriteByte]

/-- The parent-side failure points of microbox_sandbox_spawn that lie after a
successful clone3 and before SIGNAL_CHILD writes the barrier byte:
setup_uid_gid_map failing (line 487), bridge networking failing (lines
493-516, including the non-root refusal), and setup_cgroup_limits failing
(line 519). -/
inductive SpawnFailure where
  | identityMapping
  | bridgeNetwork
  | cgroupLimits
deriving DecidableEq, Repr

/-- The barrier-relevant actions a parent execution can contain. -/
inductive ParentAct where
  | procSetupWrites
  | writeBarrierByte
  | closeBarrierWriteEnd
  | signalChild
  | returnNegative
  | processExit
deriving DecidableEq, Repr

/-- What the parent actually does on each post-clone pre-barrier failure path
(sandbox.c lines 484-527 composed with main in microbox.c): it performs some
/proc and /sys writes, returns a negative code from spawn without closing
either pipe fd and without signalling the child, and main then prints a
diagnostic and calls exit(EXIT_FAILURE).  No path contains writeBarrierByte,
closeBarrierWriteEnd or signalChild. -/
def spawn_parent_failure_trace : SpawnFailure → List ParentAct
  | SpawnFailure.identityMapping =>
      [ParentAct.procSetupWrites, ParentAct.returnNegative, ParentAct.processExit]
  | SpawnFailure.bridgeNetwork =>
      [ParentAct.procSetupWrites, ParentAct.returnNegative, ParentAct.processExit]
  | SpawnFailure.cgroupLimits =>
      [ParentAct.procSetupWrites, ParentAct.returnNegative, ParentAct.processExit]

/-- The state of the barrier pipe created by MAKE_PIPE before clone3.
Because clone3 is called without CLONE_FILES, the child inherits copies of
BOTH pipe fds; `childWriteOpen` tracks the child's inherited copy of
sync_pipe[1], which the child never closes before its barrier read
(WAIT_FOR_PARENT in sandbox.h closes only sync_pipe[0], and only after the
read returns). -/
structure BarrierPipe where
  byteInPipe : Bool
  parentWriteOpen : Bool
  childWriteOpen : Bool
deriving DecidableEq, Repr

/-- The pipe state right after clone3 returns in the parent. -/
def initial_barrier : BarrierPipe := ⟨false, true, true⟩

/-- Effect of one parent action on the barrier pipe: SIGNAL_CHILD writes the
byte and closes the parent's write end; an explicit close or a process exit
closes the parent's write end (the kernel closes every fd of an exiting
process); nothing the parent does can close the child's inherited write
end. -/
def apply_parent_act : BarrierPipe → ParentAct → BarrierPipe
  | ⟨_, _, cw⟩, ParentAct.writeBarrierByte => ⟨true, false, cw⟩
  | ⟨b, _, cw⟩, ParentAct.closeBarrierWriteEnd => ⟨b, false, cw⟩
  | ⟨b, _, cw⟩, ParentAct.processExit => ⟨b, false, cw⟩
  | s, _ => s

/-- The barrier pipe state after the parent has run a given failure path to
completion. -/
def barrier_after_parent_failure (f : SpawnFailure) : BarrierPipe :=
  (spawn_parent_failure_trace f).foldl apply_parent_act initial_barrier

/-- Semantics of the child's blocking `read(sync_pipe[0], &go, 1)` inside
WAIT_FOR_PARENT: a read on a pipe returns only once a byte is available or
every copy of the write end is closed (EOF).  The child itself still holds a
copy of the write end while it reads, so the read blocks forever exactly when
no byte was written and any write end remains open. -/
def child_read_blocks_forever (s : BarrierPipe) : Bool :=
  !s.byteInPipe && (s.parentWriteOpen || s.childWriteOpen)

/-- The steps of the child branch of microbox_sandbox_spawn (sandbox.c lines
406-482), at the granularity the seccomp-ordering claim needs. -/
inductive ChildAct where
  | barrierRead
  | setHostnameAct
  | setupFsAct
  | configureNetworkAct
  | seccompInitCtx
  | seccompAddRule (name : String)
  | prctlSetNoNewPrivs
  | seccompInstallFilter
  | seccompReleaseCtx
  | freeDenylistAct
  | execveAct
deriving DecidableEq, Repr

/-- The action sequence of microbox_setup_seccomp (seccomp.c lines 87-132):
seccomp_init(SCMP_ACT_ALLOW), one seccomp_rule_add per effective-deny name,
then seccomp_load, then seccomp_release.  seccomp_load is expanded into its
two documented effects: the repository never calls seccomp_attr_set, so the
libseccomp filter attribute SCMP_FLTATR_CTL_NNP keeps its default (enabled)
value, under which seccomp_load first issues prctl(PR_SET_NO_NEW_PRIVS, 1, 0,
0, 0) and then installs the BPF filter with the seccomp(2) syscall.
seccomp_release follows the load on the success path and on the load-failure
path alike (lines 124-131). -/
def microbox_setup_seccomp_acts
    (deny allow : List String) (resolves : String → Bool) : List ChildAct :=
  [ChildAct.seccompInitCtx]
  ++ (microbox_setup_seccomp_rules deny allow resolves).map ChildAct.seccompAddRule
  ++ [ChildAct.prctlSetNoNewPrivs, ChildAct.seccompInstallFilter,
      ChildAct.seccompReleaseCtx]

/-- The child branch of microbox_sandbox_spawn on the path that reaches
execve (sandbox.c lines 406-482): block on the barrier; sethostname when a
hostname is set; build the filesystem; configure the container network in
bridge mode; merge the syscall lists; run microbox_setup_seccomp; free the
merged denylist when it differs from the default (exactly the case where user
deny/allow lists were given); execve the command.  The capability-drop call
(microbox_drop_capabilities) is commented out in the source and therefore
contributes no action. -/
def spawn_child_acts (opts : SandboxOptions) (resolves : String → Bool) :
    List ChildAct :=
  [ChildAct.barrierRead]
  ++ (match opts.hostname with
      | Option.some _ => [ChildAct.setHostnameAct]
      | Option.none => [])
  ++ [ChildAct.setupFsAct]
  ++ (if opts.net_mode = NetMode.bridge then [ChildAct.configureNetworkAct] else [])
  ++ microbox_setup_seccomp_acts
       (merge_syscall_lists opts).1 (merge_syscall_lists opts).2 resolves
  ++ (if opts.syscalls_deny = [] ∧ opts.syscalls_allow = [] then []
      else [ChildAct.freeDenylistAct])
  ++ [ChildAct.execveAct]

/-- The dev_dirs array from fs.c (lines 4-10): the host device allowlist that
microbox_bind_mount_dev bind-mounts into the sandbox /dev. -/
def dev_dirs : List String :=
  ["/dev/null", "/dev/zero", "/dev/random", "/dev/urandom", "/dev/tty"]

/-- The filesystem-building operations performed by fs.c, in the order the
source issues them.  Mount targets are recorded as path strings; flags are
implied by the constructor (mountPrivateRoot is
`mount(NULL, "/", NULL, MS_PRIVATE | MS_REC, NULL)`). -/
inductive FsOp where
  | mountPrivateRoot
  | mountTmpfs (target : String)
  | mountOverlay (target : String)
  | mountBind (target : String)
  | remountRO (target : String)
  | mountProcfs (target : String)
  | mountDevpts (target : String)
  | symlinkPtmx (target : String)
  | unlinkPath (path : String)
  | mkdirPath (path : String)
  | chdirPath (path : String)
  | pivotRoot
  | umountDetach (path : String)
  | rmdirPath (path : String)
deriving DecidableEq, Repr

/-- Whether an operation alters the mount table (any mount(2) variant,
pivot_root, or umount2). -/
def FsOp.isMountAltering : FsOp → Bool
  | FsOp.mountPrivateRoot => true
  | FsOp.mountTmpfs _ => true
  | FsOp.mountOverlay _ => true
  | FsOp.mountBind _ => true
  | FsOp.remountRO _ => true
  | FsOp.mountProcfs _ => true
  | FsOp.mountDevpts _ => true
  | FsOp.pivotRoot => true
  | FsOp.umountDetach _ => true
  | _ => false

/-- Whether an operation is one of the tmpfs/overlay/bind/proc/dev mounts
that assemble the new root. -/
def FsOp.isNewRootMount : FsOp → Bool
  | FsOp.mountTmpfs _ => true
  | FsOp.mountOverlay _ => true
  | FsOp.mountBind _ => true
  | FsOp.remountRO _ => true
  | FsOp.mountProcfs _ => true
  | FsOp.mountDevpts _ => true
  | _ => false

/-- microbox_bind_mount from fs.c (lines 36-89): prepare the target
(mkdirp for a directory source, mkdirp of the parent plus a touch for a
file/char/block source — both abstracted as mkdirPath of the target), then
`mount(host, target, NULL, MS_BIND | MS_REC, NULL)`, then, for MNT_RO,
a read-only remount `mount(NULL, target, NULL,
MS_BIND | MS_REMOUNT | MS_RDONLY | MS_NOSUID, 0)`. -/
def microbox_bind_mount_ops (base : String) (spec : MountSpec) : List FsOp :=
  [FsOp.mkdirPath (base ++ spec.dest), FsOp.mountBind (base ++ spec.dest)]
  ++ (match spec.mode with
      | MntMode.ro => [FsOp.remountRO (base ++ spec.dest)]
      | MntMode.rw => [])

/-- microsandbox_create_tmpfs from fs.c (lines 96-113): mkdir_safe the path,
then mount a tmpfs (`mode=700,size=512m`) on it. -/
def microsandbox_create_tmpfs_ops (path : String) : List FsOp :=
  [FsOp.mkdirPath path, FsOp.mountTmpfs path]

/-- microsandbox_create_overlayfs from fs.c (lines 121-176): create the
upper/work/merged directories under the mountpoint, then mount the overlay
(`lowerdir=<src>,upperdir=...,workdir=...`) on the merged directory. -/
def microsandbox_create_overlayfs_ops (mountpoint : String) : List FsOp :=
  [FsOp.mkdirPath (mountpoint ++ "/upper"),
   FsOp.mkdirPath (mountpoint ++ "/work"),
   FsOp.mkdirPath (mountpoint ++ "/merged"),
   FsOp.mountOverlay (mountpoint ++ "/merged")]

/-- microbox_bind_mount_proc from fs.c (lines 183-206): mkdirp
`<base>/proc`, then mount a proc filesystem with
MS_NOSUID | MS_NOEXEC | MS_NODEV. -/
def microbox_bind_mount_proc_ops (base : String) : List FsOp :=
  [FsOp.mkdirPath (base ++ "/proc"), FsOp.mountProcfs (base ++ "/proc")]

/-- microbox_bind_mount_dev from fs.c (lines 213-284), as mount operations:
tmpfs on `<base>/dev`, devpts on `<base>/dev/pts`, the `pts/ptmx` symlink,
tmpfs on `<base>/dev/shm`, then one bind mount per dev_dirs entry (each RW,
host path = destination path). -/
def microbox_bind_mount_dev_ops (base : String) : List FsOp :=
  [FsOp.mkdirPath (base ++ "/dev"), FsOp.mountTmpfs (base ++ "/dev"),
   FsOp.mkdirPath (base ++ "/dev/pts"), FsOp.mountDevpts (base ++ "/dev/pts"),
   FsOp.unlinkPath (base ++ "/dev/ptmx"), FsOp.symlinkPtmx (base ++ "/dev/ptmx"),
   FsOp.mkdirPath (base ++ "/dev/shm"), FsOp.mountTmpfs (base ++ "/dev/shm")]
  ++ (dev_dirs.map (fun d => microbox_bind_mount_ops base ⟨d, d, MntMode.rw⟩)).flatten

/-- The fixed tail shared by both pivoting modes (fs.c lines 350-378 and
426-454): chdir into the new root, mkdir ".old_root", pivot_root(".",
"./.old_root"), chdir("/"), umount2("/.old_root", MNT_DETACH),
rmdir("/.old_root"). -/
def pivot_sequence_ops (newRoot : String) : List FsOp :=
  [FsOp.chdirPath newRoot, FsOp.mkdirPath ".old_root", FsOp.pivotRoot,
   FsOp.chdirPath "/", FsOp.umountDetach "/.old_root", FsOp.rmdirPath "/.old_root"]

/-- microsandbox_setup_rootfs from fs.c (lines 296-386): make "/" private
recursively, tmpfs on /box, mkdir /box/overlay, build the overlayfs there,
bind the user mounts under the merged directory, then /proc and /dev if
requested, then pivot into the merged directory. -/
def microsandbox_setup_rootfs_ops (opts : SandboxOptions) : List FsOp :=
  [FsOp.mountPrivateRoot]
  ++ microsandbox_create_tmpfs_ops "/box"
  ++ [FsOp.mkdirPath "/box/overlay"]
  ++ microsandbox_create_overlayfs_ops "/box/overlay"
  ++ (opts.mounts.map (microbox_bind_mount_ops "/box/overlay/merged")).flatten
  ++ (if opts.mount_proc then microbox_bind_mount_proc_ops "/box/overlay/merged" else [])
  ++ (if opts.mount_dev then microbox_bind_mount_dev_ops "/box/overlay/merged" else [])
  ++ pivot_sequence_ops "/box/overlay/merged"

/-- microsandbox_setup_tmpfs from fs.c (lines 388-457): make "/" private
recursively, tmpfs on /box, then /proc and /dev if requested, then the user
bind mounts, then pivot into /box. -/
def microsandbox_setup_tmpfs_ops (opts : SandboxOptions) : List FsOp :=
  [FsOp.mountPrivateRoot]
  ++ microsandbox_create_tmpfs_ops "/box"
  ++ (if opts.mount_proc then microbox_bind_mount_proc_ops "/box" else [])
  ++ (if opts.mount_dev then microbox_bind_mount_dev_ops "/box" else [])
  ++ (opts.mounts.map (microbox_bind_mount_ops "/box")).flatten
  ++ pivot_sequence_ops "/box"

/-- The portion of microsandbox_setup_tmpfs_ops before the chdir/pivot_root
tail: everything from the private-root mount up to and including the user
bind mounts (fs.c lines 397-424). -/
def tmpfs_pre_ops (opts : SandboxOptions) : List FsOp :=
  [FsOp.mountPrivateRoot]
  ++ microsandbox_create_tmpfs_ops "/box"
  ++ (if opts.mount_proc then microbox_bind_mount_proc_ops "/box" else [])
  ++ (if opts.mount_dev then microbox_bind_mount_dev_ops "/box" else [])
  ++ (opts.mounts.map (microbox_bind_mount_ops "/box")).flatten

/-- The portion of microsandbox_setup_rootfs_ops before the chdir/pivot_root
tail: everything from the private-root mount up to and including the /dev
setup (fs.c lines 300-348). -/
def rootfs_pre_ops (opts : SandboxOptions) : List FsOp :=
  [FsOp.mountPrivateRoot]
  ++ microsandbox_create_tmpfs_ops "/box"
  ++ [FsOp.mkdirPath "/box/overlay"]
  ++ microsandbox_create_overlayfs_ops "/box/overlay"
  ++ (opts.mounts.map (microbox_bind_mount_ops "/box/overlay/merged")).flatten
  ++ (if opts.mount_proc then microbox_bind_mount_proc_ops "/box/overlay/merged" else [])
  ++ (if opts.mount_dev then microbox_bind_mount_dev_ops "/box/overlay/merged" else [])

/-- microsandbox_setup_fs from fs.c (lines 470-482): FS_HOST does nothing,
FS_TMPFS and FS_ROOTFS dispatch to the two builders above. -/
def microsandbox_setup_fs_ops (opts : SandboxOptions) : List FsOp :=
  match opts.fs_mode with
  | FsMode.host => []
  | FsMode.tmpfs => microsandbox_setup_tmpfs_ops opts
  | FsMode.rootfs => microsandbox_setup_rootfs_ops opts

/-- The directory the child changes into and pivots onto: the overlay merged
directory in rootfs mode, /box in tmpfs mode. -/
def new_root_path (opts : SandboxOptions) : String :=
  match opts.fs_mode with
  | FsMode.rootfs => "/box/overlay/merged"
  | _ => "/box"

/-- ULLONG_MAX / UINT64_MAX: 2^64 - 1. -/
def UINT64_MAX : Nat := 18446744073709551615

/-- The value of a list of decimal digit characters, most significant
first (the accumulation strtoull performs in base 10). -/
def digitsVal (l : List Char) : Nat :=
  l.foldl (fun acc c => acc * 10 + (c.toNat - 48)) 0

/-- The optional single sign character strtoull accepts after any leading
whitespace: the flag says whether the number is negated. -/
def stripSign (l : List Char) : Bool × List Char :=
  match l with
  | '+' :: t => (false, t)
  | '-' :: t => (true, t)
  | _ => (false, l)

/-- strtoull(nptr, &endptr, 10) as used by parse_memory, assuming errno is
clear on entry: skip leading whitespace, accept an optional sign, consume the
longest run of decimal digits.  The result triple is (value, range-error?,
endptr-suffix).  With no digits, no conversion happens and endptr is the
original string; on overflow the value is ULLONG_MAX with ERANGE; a negated
value wraps in unsigned 64-bit arithmetic without ERANGE, per C semantics. -/
def strtoull10 (l : List Char) : Nat × Bool × List Char :=
  let l1 := l.dropWhile Char.isWhitespace
  let sr := stripSign l1
  let ds := sr.2.takeWhile Char.isDigit
  let rest := sr.2.dropWhile Char.isDigit
  if ds = [] then (0, false, l)
  else if UINT64_MAX < digitsVal ds then (UINT64_MAX, true, rest)
  else
    ((if sr.1 then (2 ^ 64 - digitsVal ds) % 2 ^ 64 else digitsVal ds),
     false, rest)

/-- The suffix-to-multiplier table of parse_memory (parse.c lines 94-103):
k/K is 1024, m/M is 1024*1024, g/G is 1024*1024*1024, b/B leaves the
multiplier at 1, and any other character is an invalid suffix.  Only the
first character after the digits is examined. -/
def memory_multiplier_of_suffix (c : Char) : Option Nat :=
  if c = 'k' ∨ c = 'K' then Option.some 1024
  else if c = 'm' ∨ c = 'M' then Option.some (1024 * 1024)
  else if c = 'g' ∨ c = 'G' then Option.some (1024 * 1024 * 1024)
  else if c = 'b' ∨ c = 'B' then Option.some 1
  else Option.none

/-- parse_memory from parse.c (lines 81-111): run strtoull, return 0 on a
parse range error (`result == ULLONG_MAX && errno == ERANGE`), look up the
multiplier from the first character at endptr (end of string leaves it at 1,
an unknown suffix returns 0), return 0 when the multiplication would overflow
(`multiplier > 1 && result > UINT64_MAX / multiplier`), else return
`result * multiplier`.  (A NULL argument returns 0; strings are non-null
here.) -/
def parse_memory (s : String) : Nat :=
  let r := strtoull10 s.data
  if r.1 = UINT64_MAX ∧ r.2.1 = true then 0
  else
    let multiplier : Option Nat :=
      match r.2.2 with
      | [] => Option.some 1
      | c :: _ => memory_multiplier_of_suffix c
    match multiplier with
    | Option.none => 0
    | Option.some m =>
      if 1 < m ∧ UINT64_MAX / m < r.1 then 0 else r.1 * m

/-- The --memory handling of cli_parse_options (parse.c lines 269-276): the
option value is run through parse_memory, and a result of 0 prints an error
and exits with EXIT_FAILURE (status 1); otherwise the byte count is stored in
the options. -/
def cli_memory_option (s : String) : Except Nat Nat :=
  if parse_memory s = 0 then Except.error 1 else Except.ok (parse_memory s)

/-- The outcomes of the fallible steps of microbox_bind_mount_dev (fs.c lines
213-284) other than the five per-device bind mounts: `Option.none` means the
step succeeded, `Option.some e` that it failed with errno `e`.  The devpts
mount is special-cased in the source: a failure with errno EINVAL (= 22) is
absorbed. -/
structure DevSetupSteps where
  mkdirDev : Option Nat
  mountTmpfsDev : Option Nat
  mkdirPts : Option Nat
  mountDevpts : Option Nat
  symlinkPtmx : Option Nat
  mkdirShm : Option Nat
  mountTmpfsShm : Option Nat

/-- The tail of microbox_bind_mount_dev after the devpts mount: the ptmx
symlink (the preceding unlink result is ignored by the source), the /dev/shm
directory and tmpfs, then the dev_dirs bind-mount loop (fs.c lines 273-281),
whose microbox_bind_mount return values the source never inspects
(`bindResults`), and finally `return (0)`. -/
def bind_mount_dev_tail (steps : DevSetupSteps) (bindResults : List Int) : Int :=
  match steps.symlinkPtmx with
  | Option.some e => -(e : Int)
  | Option.none =>
    match steps.mkdirShm with
    | Option.some e => -(e : Int)
    | Option.none =>
      match steps.mountTmpfsShm with
      | Option.some e => -(e : Int)
      | Option.none =>
        let _ := bindResults
        0

/-- microbox_bind_mount_dev from fs.c (lines 213-284): a NULL base is EINVAL;
then mkdirp `<base>/dev`, mount a tmpfs there, mkdirp `<base>/dev/pts`, mount
devpts (tolerating EINVAL), and continue with `bind_mount_dev_tail`.  Every
failure of these scaffold steps returns the negated errno; the five dev_dirs
bind mounts never affect the return value. -/
def microbox_bind_mount_dev
    (steps : DevSetupSteps) (bindResults : List Int) (base : Option String) : Int :=
  match base with
  | Option.none => -22
  | Option.some _ =>
    match steps.mkdirDev with
    | Option.some e => -(e : Int)
    | Option.none =>
      match steps.mountTmpfsDev with
      | Option.some e => -(e : Int)
      | Option.none =>
        match steps.mkdirPts with
        | Option.some e => -(e : Int)
        | Option.none =>
          match steps.mountDevpts with
          | Option.some e =>
            if e ≠ 22 then -(e : Int) else bind_mount_dev_tail steps bindResults
          | Option.none => bind_mount_dev_tail steps bindResults

/-- C2: for every parent-side failure occurring after a successful clone3 and
before the barrier byte is written, the child stays blocked forever on the
barrier read: the parent's failure path performs none of the three escape
mechanisms (no barrier byte, no close of the barrier write end from within
spawn, no signal to the child), and even the parent's eventual process exit
cannot produce EOF because the child still holds its own inherited copy of
the write end, which it never closes before reading. -/
theorem spawn_parent_failure_leaves_child_blocked :
    ∀ f : SpawnFailure,
      child_read_blocks_forever (barrier_after_parent_failure f) = true ∧
      ParentAct.writeBarrierByte ∉ spawn_parent_failure_trace f ∧
      ParentAct.closeBarrierWriteEnd ∉ spawn_parent_failure_trace f ∧
      ParentAct.signalChild ∉ spawn_parent_failure_trace f := by
  intro f
  cases f <;> exact ⟨rfl, by decide, by decide, by decide⟩

/-- C5: microbox_sandbox_wait returns -EINVAL for a NULL proc, the negated
errno when waitid itself fails, the child's exit status for a normal exit,
and 128 plus the signal number when the child was killed by a signal or
dumped core. -/
theorem sandbox_wait_exit_codes (p : SandboxProcess) (e : Nat) (si : SigInfo)
    (r : Except Nat SigInfo) :
    microbox_sandbox_wait Option.none r = -22 ∧
    microbox_sandbox_wait (Option.some p) (Except.error e) = -(e : Int) ∧
    (si.code = SiCode.exited →
      microbox_sandbox_wait (Option.some p) (Except.ok si) = si.status) ∧
    ((si.code = SiCode.killed ∨ si.code = SiCode.dumped) →
      microbox_sandbox_wait (Option.some p) (Except.ok si) = 128 + si.status) := by
  refine ⟨rfl, rfl, ?_, ?_⟩
  · intro h
    rcases si with ⟨c, st⟩
    cases c <;> simp_all [microbox_sandbox_wait]
  · intro h
    rcases si with ⟨c, st⟩
    rcases h with h | h <;> cases c <;> simp_all [microbox_sandbox_wait]

/-- Witness for C5: a child killed by signal 9 yields wait status 137. -/
theorem sandbox_wait_exit_codes_witness :
    microbox_sandbox_wait (Option.some ⟨3, 7⟩) (Except.ok ⟨SiCode.killed, 9⟩) = 137 :=
  ((sandbox_wait_exit_codes ⟨3, 7⟩ 0 ⟨SiCode.killed, 9⟩
      (Except.ok ⟨SiCode.killed, 9⟩)).2.2.2 (Or.inl rfl)).trans (by norm_num)

/-- C9: after a successful waitid, microbox_sandbox_wait always performs the
network-interface cleanup with the veth name mbx<pid mod 254>h derived from
the recorded child pid — the wait path does not even receive the network
mode, so the cleanup is attempted for every mode — and when that interface
name resolves to no index (no veth pair was ever created),
netlink_delete_interface reports success and the cleanup returns 0. -/
theorem wait_cleanup_unconditional (p : SandboxProcess) (si : SigInfo)
    (ifindexOf : String → Option Nat) (deleteResult : Nat → Int) :
    WaitAct.cleanupInterfaces ("mbx" ++ toString (p.pid % 254) ++ "h")
        ∈ microbox_sandbox_wait_acts (Option.some p) (Except.ok si) ∧
    (ifindexOf ("mbx" ++ toString (p.pid % 254) ++ "h") = Option.none →
      microbox_cleanup_network_interfaces true ifindexOf deleteResult p.pid = 0) := by
  constructor
  · simp [microbox_sandbox_wait_acts, generate_interface_names]
  · intro h
    simp [microbox_cleanup_network_interfaces, netlink_delete_interface,
          generate_interface_names, h]

/-- Witness for C9: a sandbox with pid 7 that never created a veth pair still
has its cleanup succeed, and the cleanup action appears in the wait trace. -/
theorem wait_cleanup_unconditional_witness :
    WaitAct.cleanupInterfaces ("mbx" ++ toString (7 % 254) ++ "h")
        ∈ microbox_sandbox_wait_acts (Option.some ⟨3, 7⟩)
            (Except.ok ⟨SiCode.exited, 0⟩) ∧
    microbox_cleanup_network_interfaces true (fun _ => Option.none) (fun _ => -1) 7 = 0 := by
  have h := wait_cleanup_unconditional ⟨3, 7⟩ ⟨SiCode.exited, 0⟩
    (fun _ => Option.none) (fun _ => -1)
  exact ⟨h.1, h.2 rfl⟩

/-- C10: microbox_bind_mount_dev discards the results of the five per-device
bind mounts — its return value does not depend on them at all — and returns 0
whenever the tmpfs, devpts (success or absorbed EINVAL), ptmx-symlink and shm
scaffold steps succeed; the host device allowlist is exactly /dev/null,
/dev/zero, /dev/random, /dev/urandom, /dev/tty. -/
theorem dev_bind_failures_ignored (steps : DevSetupSteps)
    (bindResults bindResults' : List Int) (base : String) :
    (steps.mkdirDev = Option.none → steps.mountTmpfsDev = Option.none →
     steps.mkdirPts = Option.none →
     (steps.mountDevpts = Option.none ∨ steps.mountDevpts = Option.some 22) →
     steps.symlinkPtmx = Option.none → steps.mkdirShm = Option.none →
     steps.mountTmpfsShm = Option.none →
     microbox_bind_mount_dev steps bindResults (Option.some base) = 0) ∧
    microbox_bind_mount_dev steps bindResults (Option.some base) =
      microbox_bind_mount_dev steps bindResults' (Option.some base) ∧
    dev_dirs = ["/dev/null", "/dev/zero", "/dev/random", "/dev/urandom", "/dev/tty"] := by
  refine ⟨?_, ?_, rfl⟩
  · intro h1 h2 h3 h4 h5 h6 h7
    rcases h4 with h4 | h4 <;>
      simp [microbox_bind_mount_dev, bind_mount_dev_tail, h1, h2, h3, h4, h5, h6, h7]
  · rcases steps with ⟨a, b, c, d, e, f, g⟩
    cases a <;> cases b <;> cases c <;> cases d <;> cases e <;> cases f <;> cases g <;>
      simp [microbox_bind_mount_dev, bind_mount_dev_tail]

/-- Witness for C10: with every scaffold step succeeding except a devpts
EINVAL (which the source absorbs) and all five device bind mounts failing,
/dev setup still returns 0. -/
theorem dev_bind_failures_ignored_witness :
    microbox_bind_mount_dev
      ⟨Option.none, Option.none, Option.none, Option.some 22,
       Option.none, Option.none, Option.none⟩
      [-1, -1, -1, -1, -1] (Option.some "/box") = 0 :=
  (dev_bind_failures_ignored
      ⟨Option.none, Option.none, Option.none, Option.some 22,
       Option.none, Option.none, Option.none⟩
      [-1, -1, -1, -1, -1] [] "/box").1
    rfl rfl rfl (Or.inr rfl) rfl rfl rfl

/-- C6: setup_cgroup_limits writes cpu.max exactly when cpus > 0, and its
payload is "<floor(cpus*100000)> 100000"; it writes memory.max (the decimal
byte count) together with memory.swap.max=0 exactly when memory > 0; and
cpus = 1/2 produces the payload "50000 100000". -/
theorem cgroup_limit_writes (pid : Nat) (cpus : Rat) (memory : Nat)
    (subtreeOpenOk : Bool) :
    ((∃ v, (CgFile.cpuMax, v) ∈ setup_cgroup_limits_writes pid cpus memory subtreeOpenOk)
        ↔ 0 < cpus) ∧
    (0 < cpus → (CgFile.cpuMax, toString ((cpus * 100000).floor.toNat) ++ " 100000")
        ∈ setup_cgroup_limits_writes pid cpus memory subtreeOpenOk) ∧
    ((∃ v, (CgFile.memoryMax, v) ∈ setup_cgroup_limits_writes pid cpus memory subtreeOpenOk)
        ↔ 0 < memory) ∧
    ((∃ v, (CgFile.memorySwapMax, v) ∈ setup_cgroup_limits_writes pid cpus memory subtreeOpenOk)
        ↔ 0 < memory) ∧
    (0 < memory →
      (CgFile.memoryMax, toString memory)
          ∈ setup_cgroup_limits_writes pid cpus memory subtreeOpenOk ∧
      (CgFile.memorySwapMax, "0")
          ∈ setup_cgroup_limits_writes pid cpus memory subtreeOpenOk) ∧
    cpu_max_content (1 / 2 : Rat) = "50000 100000" := by
  have hhalf : cpu_max_content (1 / 2 : Rat) = "50000 100000" := by
    rw [cpu_max_content,
      show ((1 / 2 : Rat) * 100000).floor = 50000 by
        rw [Rat.floor_def', ← Rat.floor_def]; norm_num]
    rfl
  refine ⟨?_, ?_, ?_, ?_, ?_, hhalf⟩ <;>
    by_cases hc : 0 < cpus <;> by_cases hm : 0 < memory <;> cases subtreeOpenOk <;>
      simp [setup_cgroup_limits_writes, cpu_max_content, hc, hm]

/-- Witness for C6: with cpus = 1/2 and memory = 10485760, the write list
contains cpu.max = "50000 100000", memory.max = "10485760" and
memory.swap.max = "0". -/
theorem cgroup_limit_writes_witness :
    (CgFile.cpuMax, "50000 100000")
        ∈ setup_cgroup_limits_writes 7 (1 / 2 : Rat) 10485760 true ∧
    (CgFile.memoryMax, "10485760")
        ∈ setup_cgroup_limits_writes 7 (1 / 2 : Rat) 10485760 true ∧
    (CgFile.memorySwapMax, "0")
        ∈ setup_cgroup_limits_writes 7 (1 / 2 : Rat) 10485760 true := by
  have h := cgroup_limit_writes 7 (1 / 2 : Rat) 10485760 true
  have hcpu := h.2.1 (by norm_num)
  have hmem := h.2.2.2.2.1 (by norm_num)
  refine ⟨?_, hmem.1, hmem.2⟩
  have hs : toString (((1 / 2 : Rat) * 100000).floor.toNat) ++ " 100000" = "50000 100000" := by
    rw [show ((1 / 2 : Rat) * 100000).floor = 50000 by
          rw [Rat.floor_def', ← Rat.floor_def]; norm_num]
    rfl
  rwa [hs] at hcpu

/-- C1: the set of syscall names that receive an ENOSYS rule in the installed
seccomp filter is exactly (default_deny union user_deny) minus user_allow,
restricted to names that resolve on the architecture: the filter's default
action is ALLOW, allow-listed names are always skipped (even default-denied
ones), and unresolvable names are silently dropped.  The hypothesis records
that seccomp_syscall_resolve_name rejects the empty string, which the loop
also skips explicitly. -/
theorem seccomp_effective_denylist (opts : SandboxOptions)
    (resolves : String → Bool) (hres : resolves "" = false) (nm : String) :
    nm ∈ microbox_setup_seccomp_rules
          (merge_syscall_lists opts).1 (merge_syscall_lists opts).2 resolves ↔
      ((nm ∈ docker_default_denylist ∨ nm ∈ opts.syscalls_deny) ∧
       nm ∉ opts.syscalls_allow ∧ resolves nm = true) := by
  have hne : resolves nm = true → nm ≠ "" := by
    intro hr h0
    rw [h0, hres] at hr
    cases hr
  have hmem : ∀ (deny allow : List String),
      nm ∈ microbox_setup_seccomp_rules deny allow resolves ↔
        nm ∈ deny ∧ nm ≠ "" ∧ nm ∉ allow ∧ resolves nm = true := by
    intro deny allow
    simp [microbox_setup_seccomp_rules, List.mem_filter]
  by_cases hcase : opts.syscalls_deny = [] ∧ opts.syscalls_allow = []
  · have h1 : merge_syscall_lists opts = (docker_default_denylist, []) := by
      rw [merge_syscall_lists, if_pos hcase]
    rw [h1, hmem, hcase.1, hcase.2]
    constructor
    · rintro ⟨ha, _, _, hd⟩
      exact ⟨Or.inl ha, (by intro hx; cases hx), hd⟩
    · rintro ⟨ha, _, hd⟩
      refine ⟨?_, hne hd, (by intro hx; cases hx), hd⟩
      rcases ha with ha | ha
      · exact ha
      · cases ha
  · have h1 : merge_syscall_lists opts =
        (docker_default_denylist ++ opts.syscalls_deny, opts.syscalls_allow) := by
      rw [merge_syscall_lists, if_neg hcase]
    rw [h1, hmem, List.mem_append]
    constructor
    · rintro ⟨ha, _, hb, hd⟩
      exact ⟨ha, hb, hd⟩
    · rintro ⟨ha, hb, hd⟩
      exact ⟨ha, hne hd, hb, hd⟩

/-- Witness for C1: with user deny list ["acct"] and user allow list
["mount"], the syscall "ptrace" (default-denied, resolvable, not
allow-listed) receives an ENOSYS rule, and the allow-listed "mount" does
not. -/
theorem seccomp_effective_denylist_witness :
    "ptrace" ∈ microbox_setup_seccomp_rules
        (merge_syscall_lists ⟨FsMode.tmpfs, NetMode.none, "", Option.none, 0, 0,
            [], false, false, ["mount"], ["acct"], ["/bin/sh"]⟩).1
        (merge_syscall_lists ⟨FsMode.tmpfs, NetMode.none, "", Option.none, 0, 0,
            [], false, false, ["mount"], ["acct"], ["/bin/sh"]⟩).2
        (fun s => s == "ptrace" || s == "mount" || s == "acct") ∧
    "mount" ∉ microbox_setup_seccomp_rules
        (merge_syscall_lists ⟨FsMode.tmpfs, NetMode.none, "", Option.none, 0, 0,
            [], false, false, ["mount"], ["acct"], ["/bin/sh"]⟩).1
        (merge_syscall_lists ⟨FsMode.tmpfs, NetMode.none, "", Option.none, 0, 0,
            [], false, false, ["mount"], ["acct"], ["/bin/sh"]⟩).2
        (fun s => s == "ptrace" || s == "mount" || s == "acct") := by
  constructor
  · exact (seccomp_effective_denylist _ _ (by decide) "ptrace").mpr (by decide)
  · intro hmem
    have h := (seccomp_effective_denylist _ _ (by decide) "mount").mp hmem
    exact absurd h (by decide)

/-- C7 counterexample: the claim states the uid map payload as "0 <uid> 1",
but the source formats it with "0 %d 1\n"; at pid 1, uid 1000 the single
write to /proc/1/uid_map carries "0 1000 1\n" (with trailing newline), and no
write of the claimed string "0 1000 1" occurs. -/
theorem uid_map_newline_counterexample :
    (("/proc/1/uid_map", "0 1000 1") ∉
        (setup_uid_gid_map 1 1000 1000 (fun _ => true)).2) ∧
    ("/proc/1/uid_map", "0 1000 1\n") ∈
        (setup_uid_gid_map 1 1000 1000 (fun _ => true)).2 := by
  decide

/-- C7 (amended: the uid/gid map payloads carry a trailing newline):
setup_uid_gid_map performs, in order, a single whole-string write of "deny"
to /proc/<pid>/setgroups, then of "0 <uid> 1\n" to /proc/<pid>/uid_map, then
of "0 <gid> 1\n" to /proc/<pid>/gid_map; it returns 0 exactly when all three
writes transfer fully, any short or failed write aborts the step with -1 and
stops further writes; and in the spawn parent these three writes all happen
before the barrier byte is released. -/
theorem identity_map_write_order (pid uid gid : Nat) (ok : MapStep → Bool)
    (opts : SandboxOptions) :
    ((setup_uid_gid_map pid uid gid ok).1 = 0 ↔ ∀ s, ok s = true) ∧
    (ok MapStep.setgroupsStep = false →
      setup_uid_gid_map pid uid gid ok = (-1, [(setgroups_path pid, "deny")])) ∧
    (ok MapStep.setgroupsStep = true → ok MapStep.uidMapStep = false →
      setup_uid_gid_map pid uid gid ok =
        (-1, [(setgroups_path pid, "deny"),
              (uid_map_path pid, uid_map_content uid)])) ∧
    (ok MapStep.setgroupsStep = true → ok MapStep.uidMapStep = true →
     ok MapStep.gidMapStep = false →
      setup_uid_gid_map pid uid gid ok =
        (-1, [(setgroups_path pid, "deny"),
              (uid_map_path pid, uid_map_content uid),
              (gid_map_path pid, gid_map_content gid)])) ∧
    ((∀ s, ok s = true) →
      setup_uid_gid_map pid uid gid ok =
        (0, [(setgroups_path pid, "deny"),
             (uid_map_path pid, uid_map_content uid),
             (gid_map_path pid, gid_map_content gid)])) ∧
    (∃ mid, spawn_parent_ops opts pid uid gid =
        [ParentOp.fileWrite (setgroups_path pid) "deny",
         ParentOp.fileWrite (uid_map_path pid) (uid_map_content uid),
         ParentOp.fileWrite (gid_map_path pid) (gid_map_content gid)]
        ++ mid ++ [ParentOp.barrierWriteByte] ∧
      (∀ a ∈ mid, (∀ p c, a ≠ ParentOp.fileWrite p c) ∧
                  a ≠ ParentOp.barrierWriteByte)) := by
  have hall : (∀ s, ok s = true) ↔
      (ok MapStep.setgroupsStep = true ∧ ok MapStep.uidMapStep = true ∧
       ok MapStep.gidMapStep = true) := by
    constructor
    · intro h
      exact ⟨h _, h _, h _⟩
    · rintro ⟨h1, h2, h3⟩ s
      cases s
      · exact h1
      · exact h2
      · exact h3
  refine ⟨?_, ?_, ?_, ?_, ?_, ?_⟩
  · rw [hall]
    rcases h1 : ok MapStep.setgroupsStep <;> rcases h2 : ok MapStep.uidMapStep <;>
      rcases h3 : ok MapStep.gidMapStep <;>
        simp [setup_uid_gid_map, h1, h2, h3]
  · intro h1
    simp [setup_uid_gid_map, h1]
  · intro h1 h2
    simp [setup_uid_gid_map, h1, h2]
  · intro h1 h2 h3
    simp [setup_uid_gid_map, h1, h2, h3]
  · intro h
    simp [setup_uid_gid_map, h MapStep.setgroupsStep, h MapStep.uidMapStep,
          h MapStep.gidMapStep]
  · refine ⟨(if opts.net_mode = NetMode.bridge then
        [ParentOp.netSetupOp, ParentOp.moveVethOp] else []) ++ [ParentOp.cgroupOp],
      ?_, ?_⟩
    · simp [spawn_parent_ops, setup_uid_gid_map, List.append_assoc]
    · intro a ha
      have hcase : a = ParentOp.netSetupOp ∨ a = ParentOp.moveVethOp ∨
          a = ParentOp.cgroupOp := by
        rcases List.mem_append.1 ha with h | h
        · by_cases hb : opts.net_mode = NetMode.bridge
          · rw [if_pos hb] at h
            simp at h
            tauto
          · rw [if_neg hb] at h
            cases h
        · simp at h
          tauto
      rcases hcase with rfl | rfl | rfl <;>
        exact ⟨fun p c => by simp, by simp⟩

/-- Witness for C7: at pid 1, uid 1000, gid 1001 with all writes succeeding,
the mapper returns 0 after writing exactly the three files in order with the
newline-terminated map payloads. -/
theorem identity_map_write_order_witness :
    setup_uid_gid_map 1 1000 1001 (fun _ => true) =
      (0, [("/proc/1/setgroups", "deny"),
           ("/proc/1/uid_map", "0 1000 1\n"),
           ("/proc/1/gid_map", "0 1001 1\n")]) := by
  have h := (identity_map_write_order 1 1000 1001 (fun _ => true)
      ⟨FsMode.tmpfs, NetMode.none, "", Option.none, 0, 0, [], false, false,
       [], [], ["/bin/sh"]⟩).2.2.2.2.1 (fun _ => rfl)
  exact h.trans (by decide)

/-- C3: in the child path, for every options value and resolver, the trace
contains the block [prctl(PR_SET_NO_NEW_PRIVS=1); install filter; release
context] — PR_SET_NO_NEW_PRIVS is applied immediately before the filter is
loaded (by seccomp_load under libseccomp's default CTL_NNP attribute, which
the repository never changes), the context is released immediately after the
load, and no filter install occurs anywhere else in the child. -/
theorem child_nnp_before_filter_load (opts : SandboxOptions)
    (resolves : String → Bool) :
    ∃ pre post, spawn_child_acts opts resolves =
        pre ++ [ChildAct.prctlSetNoNewPrivs, ChildAct.seccompInstallFilter,
                ChildAct.seccompReleaseCtx] ++ post ∧
      (∀ a ∈ pre, a ≠ ChildAct.prctlSetNoNewPrivs ∧
                  a ≠ ChildAct.seccompInstallFilter ∧
                  a ≠ ChildAct.seccompReleaseCtx) ∧
      (∀ a ∈ post, a ≠ ChildAct.prctlSetNoNewPrivs ∧
                   a ≠ ChildAct.seccompInstallFilter ∧
                   a ≠ ChildAct.seccompReleaseCtx) := by
  refine ⟨[ChildAct.barrierRead]
      ++ (match opts.hostname with
          | Option.some _ => [ChildAct.setHostnameAct]
          | Option.none => [])
      ++ [ChildAct.setupFsAct]
      ++ (if opts.net_mode = NetMode.bridge then [ChildAct.configureNetworkAct] else [])
      ++ [ChildAct.seccompInitCtx]
      ++ (microbox_setup_seccomp_rules
            (merge_syscall_lists opts).1 (merge_syscall_lists opts).2
            resolves).map ChildAct.seccompAddRule,
    (if opts.syscalls_deny = [] ∧ opts.syscalls_allow = [] then []
     else [ChildAct.freeDenylistAct]) ++ [ChildAct.execveAct], ?_, ?_, ?_⟩
  · simp only [spawn_child_acts, microbox_setup_seccomp_acts, List.append_assoc,
      List.singleton_append, List.cons_append, List.nil_append]
  · intro a ha
    have hcase : a = ChildAct.barrierRead ∨ a = ChildAct.setHostnameAct ∨
        a = ChildAct.setupFsAct ∨ a = ChildAct.configureNetworkAct ∨
        a = ChildAct.seccompInitCtx ∨
        (∃ nm, a = ChildAct.seccompAddRule nm) := by
      simp only [List.append_assoc, List.mem_append, List.mem_cons,
        List.not_mem_nil, or_false, List.mem_map] at ha
      rcases ha with h | h | h | h | h | h
      · tauto
      · rcases hh : opts.hostname with _ | v
        · rw [hh] at h
          cases h
        · rw [hh] at h
          simp at h
          tauto
      · tauto
      · by_cases hb : opts.net_mode = NetMode.bridge
        · rw [if_pos hb] at h
          simp at h
          tauto
        · rw [if_neg hb] at h
          cases h
      · tauto
      · rcases h with ⟨nm, _, rfl⟩
        exact Or.inr (Or.inr (Or.inr (Or.inr (Or.inr ⟨nm, rfl⟩))))
    rcases hcase with rfl | rfl | rfl | rfl | rfl | ⟨nm, rfl⟩ <;>
      exact ⟨by simp, by simp, by simp⟩
  · intro a ha
    have hcase : a = ChildAct.freeDenylistAct ∨ a = ChildAct.execveAct := by
      rcases List.mem_append.1 ha with h | h
      · by_cases hb : opts.syscalls_deny = [] ∧ opts.syscalls_allow = []
        · rw [if_pos hb] at h
          cases h
        · rw [if_neg hb] at h
          simp at h
          tauto
      · simp at h
        tauto
    rcases hcase with rfl | rfl <;> exact ⟨by simp, by simp, by simp⟩

lemma pivot_not_mem_bind_ops (base : String) (spec : MountSpec) :
    FsOp.pivotRoot ∉ microbox_bind_mount_ops base spec := by
  rcases spec with ⟨hs, ds, m⟩
  cases m <;> simp [microbox_bind_mount_ops]

lemma pivot_not_mem_bind_flatten (base : String) (mounts : List MountSpec) :
    FsOp.pivotRoot ∉ (mounts.map (microbox_bind_mount_ops base)).flatten := by
  intro hx
  rw [List.mem_flatten] at hx
  rcases hx with ⟨l, hl, hmem⟩
  rw [List.mem_map] at hl
  rcases hl with ⟨spec, _, rfl⟩
  exact pivot_not_mem_bind_ops base spec hmem

lemma pivot_not_mem_dev_ops (base : String) :
    FsOp.pivotRoot ∉ microbox_bind_mount_dev_ops base := by
  simp [microbox_bind_mount_dev_ops, dev_dirs, microbox_bind_mount_ops]

lemma pivot_not_mem_tmpfs_pre (opts : SandboxOptions) :
    FsOp.pivotRoot ∉ tmpfs_pre_ops opts := by
  intro hx
  simp only [tmpfs_pre_ops, List.append_assoc, List.mem_append] at hx
  rcases hx with hx | hx | hx | hx | hx
  · simp at hx
  · simp [microsandbox_create_tmpfs_ops] at hx
  · by_cases hp : opts.mount_proc
    · rw [if_pos hp] at hx
      simp [microbox_bind_mount_proc_ops] at hx
    · rw [if_neg hp] at hx
      cases hx
  · by_cases hd : opts.mount_dev
    · rw [if_pos hd] at hx
      exact pivot_not_mem_dev_ops _ hx
    · rw [if_neg hd] at hx
      cases hx
  · exact pivot_not_mem_bind_flatten _ _ hx

lemma pivot_not_mem_rootfs_pre (opts : SandboxOptions) :
    FsOp.pivotRoot ∉ rootfs_pre_ops opts := by
  intro hx
  simp only [rootfs_pre_ops, List.append_assoc, List.mem_append] at hx
  rcases hx with hx | hx | hx | hx | hx | hx | hx
  · simp at hx
  · simp [microsandbox_create_tmpfs_ops] at hx
  · simp at hx
  · simp [microsandbox_create_overlayfs_ops] at hx
  · exact pivot_not_mem_bind_flatten _ _ hx
  · by_cases hp : opts.mount_proc
    · rw [if_pos hp] at hx
      simp [microbox_bind_mount_proc_ops] at hx
    · rw [if_neg hp] at hx
      cases hx
  · by_cases hd : opts.mount_dev
    · rw [if_pos hd] at hx
      exact pivot_not_mem_dev_ops _ hx
    · rw [if_neg hd] at hx
      cases hx

/-- C4: for fs_mode in {Tmpfs, Rootfs}, the very first filesystem operation
is mount("/", MS_PRIVATE|MS_REC); the trace decomposes as a pre-pivot prefix
(which contains every tmpfs/overlay/bind//proc//dev mount and no pivot_root)
followed by chdir into the new root, mkdir of .old_root, pivot_root, chdir
to "/", the MNT_DETACH unmount of the old root and its rmdir; and the
mount-altering operations after pivot_root consist solely of that detach. -/
theorem fs_pivot_root_ordering (opts : SandboxOptions)
    (h : opts.fs_mode = FsMode.tmpfs ∨ opts.fs_mode = FsMode.rootfs) :
    (microsandbox_setup_fs_ops opts).head? = some FsOp.mountPrivateRoot ∧
    ∃ pre,
      microsandbox_setup_fs_ops opts =
        pre ++ [FsOp.chdirPath (new_root_path opts), FsOp.mkdirPath ".old_root",
                FsOp.pivotRoot, FsOp.chdirPath "/",
                FsOp.umountDetach "/.old_root", FsOp.rmdirPath "/.old_root"] ∧
      FsOp.pivotRoot ∉ pre ∧
      (∀ op ∈ microsandbox_setup_fs_ops opts, op.isNewRootMount = true → op ∈ pre) ∧
      (microsandbox_setup_fs_ops opts).filter (fun op => op.isMountAltering) =
        pre.filter (fun op => op.isMountAltering)
          ++ [FsOp.pivotRoot, FsOp.umountDetach "/.old_root"] := by
  rcases h with h | h
  · have hops : microsandbox_setup_fs_ops opts = microsandbox_setup_tmpfs_ops opts := by
      simp [microsandbox_setup_fs_ops, h]
    have hroot : new_root_path opts = "/box" := by
      simp [new_root_path, h]
    have heq : microsandbox_setup_tmpfs_ops opts =
        tmpfs_pre_ops opts ++
          [FsOp.chdirPath "/box", FsOp.mkdirPath ".old_root", FsOp.pivotRoot,
           FsOp.chdirPath "/", FsOp.umountDetach "/.old_root",
           FsOp.rmdirPath "/.old_root"] := rfl
    refine ⟨by rw [hops]; rfl, tmpfs_pre_ops opts, by rw [hops, hroot]; exact heq,
      pivot_not_mem_tmpfs_pre opts, ?_, ?_⟩
    · intro op hop hmt
      rw [hops, heq] at hop
      rcases List.mem_append.1 hop with hop | hop
      · exact hop
      · exfalso
        simp only [List.mem_cons, List.not_mem_nil, or_false] at hop
        rcases hop with rfl | rfl | rfl | rfl | rfl | rfl <;> cases hmt
    · rw [hops, heq, List.filter_append]
      rfl
  · have hops : microsandbox_setup_fs_ops opts = microsandbox_setup_rootfs_ops opts := by
      simp [microsandbox_setup_fs_ops, h]
    have hroot : new_root_path opts = "/box/overlay/merged" := by
      simp [new_root_path, h]
    have heq : microsandbox_setup_rootfs_ops opts =
        rootfs_pre_ops opts ++
          [FsOp.chdirPath "/box/overlay/merged", FsOp.mkdirPath ".old_root",
           FsOp.pivotRoot, FsOp.chdirPath "/", FsOp.umountDetach "/.old_root",
           FsOp.rmdirPath "/.old_root"] := rfl
    refine ⟨by rw [hops]; rfl, rootfs_pre_ops opts, by rw [hops, hroot]; exact heq,
      pivot_not_mem_rootfs_pre opts, ?_, ?_⟩
    · intro op hop hmt
      rw [hops, heq] at hop
      rcases List.mem_append.1 hop with hop | hop
      · exact hop
      · exfalso
        simp only [List.mem_cons, List.not_mem_nil, or_false] at hop
        rcases hop with rfl | rfl | rfl | rfl | rfl | rfl <;> cases hmt
    · rw [hops, heq, List.filter_append]
      rfl

/-- Witness for C4: the ordering holds for a concrete tmpfs sandbox with
/proc, /dev and no user mounts. -/
theorem fs_pivot_root_ordering_witness :
    (microsandbox_setup_fs_ops
        ⟨FsMode.tmpfs, NetMode.none, "", Option.none, 0, 0, [], true, true,
         [], [], ["/bin/sh"]⟩).head? = some FsOp.mountPrivateRoot ∧
    ∃ pre,
      microsandbox_setup_fs_ops
          ⟨FsMode.tmpfs, NetMode.none, "", Option.none, 0, 0, [], true, true,
           [], [], ["/bin/sh"]⟩ =
        pre ++ [FsOp.chdirPath (new_root_path
                  ⟨FsMode.tmpfs, NetMode.none, "", Option.none, 0, 0, [], true,
                   true, [], [], ["/bin/sh"]⟩),
                FsOp.mkdirPath ".old_root", FsOp.pivotRoot, FsOp.chdirPath "/",
                FsOp.umountDetach "/.old_root", FsOp.rmdirPath "/.old_root"] ∧
      FsOp.pivotRoot ∉ pre ∧
      (∀ op ∈ microsandbox_setup_fs_ops
          ⟨FsMode.tmpfs, NetMode.none, "", Option.none, 0, 0, [], true, true,
           [], [], ["/bin/sh"]⟩, op.isNewRootMount = true → op ∈ pre) ∧
      (microsandbox_setup_fs_ops
          ⟨FsMode.tmpfs, NetMode.none, "", Option.none, 0, 0, [], true, true,
           [], [], ["/bin/sh"]⟩).filter (fun op => op.isMountAltering) =
        pre.filter (fun op => op.isMountAltering)
          ++ [FsOp.pivotRoot, FsOp.umountDetach "/.old_root"] :=
  fs_pivot_root_ordering
    ⟨FsMode.tmpfs, NetMode.none, "", Option.none, 0, 0, [], true, true,
     [], [], ["/bin/sh"]⟩ (Or.inl rfl)

lemma digit_not_whitespace {c : Char} (h : c.isDigit = true) :
    c.isWhitespace = false := by
  by_cases hw : c.isWhitespace = true
  · exfalso
    simp [Char.isWhitespace] at hw
    rcases hw with ((rfl | rfl) | rfl) | rfl <;> exact absurd h (by decide)
  · simpa using hw

lemma digit_not_sign {c : Char} (h : c.isDigit = true) : c ≠ '+' ∧ c ≠ '-' := by
  constructor <;> intro heq <;> subst heq <;> exact absurd h (by decide)

lemma stripSign_digit (d : Char) (t : List Char) (h : d.isDigit = true) :
    stripSign (d :: t) = (false, d :: t) := by
  have hs := digit_not_sign h
  unfold stripSign
  split
  · rename_i heq
    injection heq with h1 h2
    exact absurd h1 hs.1
  · rename_i heq
    injection heq with h1 h2
    exact absurd h1 hs.2
  · rfl

lemma takeWhile_append_all {p : Char → Bool} :
    ∀ (l r : List Char), (∀ c ∈ l, p c = true) →
      (l ++ r).takeWhile p = l ++ r.takeWhile p := by
  intro l
  induction l with
  | nil =>
    intro r h
    simp
  | cons a t ih =>
    intro r h
    rw [List.cons_append, List.takeWhile_cons, if_pos (h a (List.mem_cons_self a t)),
        ih r (fun c hc => h c (List.mem_cons_of_mem a hc)), List.cons_append]

lemma dropWhile_append_all {p : Char → Bool} :
    ∀ (l r : List Char), (∀ c ∈ l, p c = true) →
      (l ++ r).dropWhile p = r.dropWhile p := by
  intro l
  induction l with
  | nil =>
    intro r h
    simp
  | cons a t ih =>
    intro r h
    rw [List.cons_append, List.dropWhile_cons, if_pos (h a (List.mem_cons_self a t)),
        ih r (fun c hc => h c (List.mem_cons_of_mem a hc))]

lemma takeWhile_head_false {p : Char → Bool} (r : List Char)
    (h : ∀ c, r.head? = some c → p c = false) : r.takeWhile p = [] := by
  cases r with
  | nil => rfl
  | cons a t => simp [List.takeWhile_cons, h a rfl]

lemma dropWhile_head_false {p : Char → Bool} (r : List Char)
    (h : ∀ c, r.head? = some c → p c = false) : r.dropWhile p = r := by
  cases r with
  | nil => rfl
  | cons a t => simp [List.dropWhile_cons, h a rfl]

lemma strtoull10_digits (d : Char) (dt rest : List Char)
    (hds : ∀ c ∈ d :: dt, c.isDigit = true)
    (hrest : ∀ c, rest.head? = some c → c.isDigit = false) :
    strtoull10 ((d :: dt) ++ rest) =
      (if UINT64_MAX < digitsVal (d :: dt)
       then (UINT64_MAX, true, rest)
       else (digitsVal (d :: dt), false, rest)) := by
  have hd : d.isDigit = true := hds d (List.mem_cons_self d dt)
  have h1 : ((d :: dt) ++ rest).dropWhile Char.isWhitespace = (d :: dt) ++ rest := by
    rw [List.cons_append, List.dropWhile_cons]
    simp [digit_not_whitespace hd]
  have h2 : ((d :: dt) ++ rest).takeWhile Char.isDigit = d :: dt := by
    rw [takeWhile_append_all _ _ hds, takeWhile_head_false rest hrest, List.append_nil]
  have h3 : ((d :: dt) ++ rest).dropWhile Char.isDigit = rest := by
    rw [dropWhile_append_all _ _ hds, dropWhile_head_false rest hrest]
  rw [strtoull10]
  rw [h1, List.cons_append, stripSign_digit d (dt ++ rest) hd]
  rw [show ((false, d :: (dt ++ rest)) : Bool × List Char).2 = d :: (dt ++ rest) from rfl]
  rw [← List.cons_append, h2, h3]
  rw [if_neg (by simp : ¬(d :: dt = []))]
  rfl

lemma multiplier_cases (c : Char) (m : Nat)
    (h : memory_multiplier_of_suffix c = Option.some m) :
    m = 1024 ∨ m = 1024 * 1024 ∨ m = 1024 * 1024 * 1024 ∨ m = 1 := by
  unfold memory_multiplier_of_suffix at h
  split_ifs at h <;> injection h with h <;> subst h <;> tauto

lemma parse_memory_general (ds : List Char) (suf : Char) (hne : ds ≠ [])
    (hds : ∀ c ∈ ds, c.isDigit = true) (hsuf : suf.isDigit = false) :
    parse_memory (String.mk (ds ++ [suf])) =
      (match memory_multiplier_of_suffix suf with
       | Option.none => 0
       | Option.some m =>
         if UINT64_MAX < digitsVal ds ∨ UINT64_MAX < digitsVal ds * m then 0
         else digitsVal ds * m) := by
  rcases ds with _ | ⟨d, dt⟩
  · exact absurd rfl hne
  have hrest : ∀ c, ([suf] : List Char).head? = some c → c.isDigit = false := by
    intro c hc
    injection hc with hc
    subst hc
    exact hsuf
  rw [parse_memory]
  rw [show (String.mk ((d :: dt) ++ [suf])).data = (d :: dt) ++ [suf] from rfl]
  rw [strtoull10_digits d dt [suf] hds hrest]
  by_cases hov : UINT64_MAX < digitsVal (d :: dt)
  · rw [if_pos hov]
    cases hm : memory_multiplier_of_suffix suf <;> simp [hov]
  · rw [if_neg hov]
    rw [if_neg (by simp : ¬((digitsVal (d :: dt) = UINT64_MAX ∧ (false : Bool) = true)))]
    show (match memory_multiplier_of_suffix suf with
          | Option.none => (0 : Nat)
          | Option.some m =>
            if 1 < m ∧ UINT64_MAX / m < digitsVal (d :: dt) then 0
            else digitsVal (d :: dt) * m) = _
    cases hm : memory_multiplier_of_suffix suf with
    | none => rfl
    | some m =>
      show (if 1 < m ∧ UINT64_MAX / m < digitsVal (d :: dt) then 0
            else digitsVal (d :: dt) * m) =
           (if UINT64_MAX < digitsVal (d :: dt) ∨ UINT64_MAX < digitsVal (d :: dt) * m
            then 0 else digitsVal (d :: dt) * m)
      have hm0 : 0 < m := by
        rcases multiplier_cases suf m hm with rfl | rfl | rfl | rfl <;> norm_num
      by_cases h1 : 1 < m
      · have hiff : (1 < m ∧ UINT64_MAX / m < digitsVal (d :: dt)) ↔
            (UINT64_MAX < digitsVal (d :: dt) ∨
             UINT64_MAX < digitsVal (d :: dt) * m) := by
          rw [Nat.div_lt_iff_lt_mul hm0]
          constructor
          · rintro ⟨-, hlt⟩
            exact Or.inr hlt
          · rintro (hlt | hlt)
            · exact absurd hlt hov
            · exact ⟨h1, hlt⟩
        rw [if_congr hiff rfl rfl]
      · have hm1 : m = 1 := by omega
        subst hm1
        rw [if_neg (by simp : ¬(1 < 1 ∧ UINT64_MAX / 1 < digitsVal (d :: dt)))]
        rw [if_neg]
        intro hcon
        rcases hcon with hcon | hcon
        · exact hov hcon
        · rw [Nat.mul_one] at hcon
          exact hov hcon

lemma parse_memory_nosuffix (ds : List Char) (hne : ds ≠ [])
    (hds : ∀ c ∈ ds, c.isDigit = true) :
    parse_memory (String.mk ds) =
      if UINT64_MAX < digitsVal ds then 0 else digitsVal ds := by
  rcases ds with _ | ⟨d, dt⟩
  · exact absurd rfl hne
  have hrest : ∀ c, ([] : List Char).head? = some c → c.isDigit = false := by
    intro c hc
    cases hc
  rw [parse_memory]
  rw [show (String.mk (d :: dt)).data = (d :: dt) ++ [] from by simp]
  rw [strtoull10_digits d dt [] hds hrest]
  by_cases hov : UINT64_MAX < digitsVal (d :: dt)
  · rw [if_pos hov]
    simp [hov]
  · rw [if_neg hov]
    rw [if_neg (by simp : ¬((digitsVal (d :: dt) = UINT64_MAX ∧ (false : Bool) = true)))]
    show (if 1 < 1 ∧ UINT64_MAX / 1 < digitsVal (d :: dt) then 0
          else digitsVal (d :: dt) * 1) = _
    rw [if_neg (by simp : ¬(1 < 1 ∧ UINT64_MAX / 1 < digitsVal (d :: dt))), if_neg hov]
    exact Nat.mul_one _

/-- C8: parse_memory interprets a decimal digit string followed by suffix
k/K, m/M, g/G as the value times 1024, 1024^2, 1024^3 respectively, b/B or no
suffix as plain bytes, returns 0 (the error value) when the parse or the
multiplication overflows the unsigned 64-bit range or when the suffix is
unknown; "2G" resolves to 2147483648 and "10M" to 10485760; and a 0 result
makes the CLI --memory handling exit with status 1. -/
theorem parse_memory_suffix_semantics :
    (∀ (ds : List Char) (suf : Char), ds ≠ [] → (∀ c ∈ ds, c.isDigit = true) →
      suf.isDigit = false →
      parse_memory (String.mk (ds ++ [suf])) =
        (match memory_multiplier_of_suffix suf with
         | Option.none => 0
         | Option.some m =>
           if UINT64_MAX < digitsVal ds ∨ UINT64_MAX < digitsVal ds * m then 0
           else digitsVal ds * m)) ∧
    (∀ ds, ds ≠ [] → (∀ c ∈ ds, c.isDigit = true) →
      parse_memory (String.mk ds) =
        if UINT64_MAX < digitsVal ds then 0 else digitsVal ds) ∧
    memory_multiplier_of_suffix 'k' = Option.some 1024 ∧
    memory_multiplier_of_suffix 'K' = Option.some 1024 ∧
    memory_multiplier_of_suffix 'm' = Option.some 1048576 ∧
    memory_multiplier_of_suffix 'M' = Option.some 1048576 ∧
    memory_multiplier_of_suffix 'g' = Option.some 1073741824 ∧
    memory_multiplier_of_suffix 'G' = Option.some 1073741824 ∧
    memory_multiplier_of_suffix 'b' = Option.some 1 ∧
    memory_multiplier_of_suffix 'B' = Option.some 1 ∧
    parse_memory "2G" = 2147483648 ∧
    parse_memory "10M" = 10485760 ∧
    (∀ s, parse_memory s = 0 → cli_memory_option s = Except.error 1) := by
  refine ⟨parse_memory_general, parse_memory_nosuffix, by decide, by decide,
    by decide, by decide, by decide, by decide, by decide, by decide,
    by decide, by decide, ?_⟩
  intro s h
  rw [cli_memory_option, if_pos h]

/-- Witness for C8: the general suffix characterization applied at "10M". -/
theorem parse_memory_suffix_semantics_witness :
    parse_memory (String.mk (['1', '0'] ++ ['M'])) =
      (match memory_multiplier_of_suffix 'M' with
       | Option.none => 0
       | Option.some m =>
         if UINT64_MAX < digitsVal ['1', '0'] ∨ UINT64_MAX < digitsVal ['1', '0'] * m
         then 0 else digitsVal ['1', '0'] * m) :=
  parse_memory_suffix_semantics.1 ['1', '0'] 'M' (by decide) (by decide) (by decide)

end Microbox
